import Mathlib

/-!
# Shallow embedding of `organizer.py`

This file embeds the file-organizer program (`src/organizer.py`) in Lean 4:

* `os.path` string helpers (`isabs`, `pathJoin`, `expanduser`, `basename`,
  `splitext`) are modelled on plain strings, following the CPython posixpath
  algorithms.  Paths are compared as strings (no symlink or `.`/`..`
  resolution), and `expanduser` expands only the bare `~` form (a `~user`
  form behaves like an unknown user and is returned unchanged).
* The filesystem is a pair of lists: the paths of the regular files and the
  paths of the directories.  Fallible operations (`os.makedirs`,
  `shutil.move`) take their failure behaviour from an environment `Env` of
  oracles; a raised Python exception is an `Except.error` carrying the
  exception's message.
* `datetime.now().strftime('%Y%m%d%H%M%S')` is modelled by a clock value in
  `Env` and a zero-padded formatter; the model agrees with C `strftime` on
  every valid local-clock reading (see `ValidTime`).
* Log-file lines (`logging.info` / `logging.error`), stdout lines (`print`)
  and stderr lines (`print(..., file=sys.stderr)`) are collected in separate
  lists.  The single-quote characters that the Python f-strings place around
  file names are written via `sq` (`Char.ofNat 39`).
-/

namespace Organizer

/-- `s.startswith(pre)`, computed on the character lists (so that concrete
instances reduce inside the kernel). -/
def strStarts (s pre : String) : Bool :=
  decide (s.data.take pre.data.length = pre.data)

/-- `s.endswith(post)`, computed on the character lists. -/
def strEnds (s post : String) : Bool :=
  decide (s.data.length ≥ post.data.length ∧
    s.data.drop (s.data.length - post.data.length) = post.data)

/-- Python `str.lower()` restricted to ASCII, computed characterwise. -/
def pyLower (s : String) : String := ⟨s.data.map Char.toLower⟩

/-- `os.path.isabs` for POSIX paths: absolute iff it starts with a slash. -/
def isabs (p : String) : Bool := strStarts p "/"

/-- `os.path.join(a, b)` for POSIX paths (two-argument form). -/
def pathJoin (a b : String) : String :=
  if isabs b then b
  else if a = "" ∨ strEnds a "/" then a ++ b
  else a ++ "/" ++ b

/-- `os.path.expanduser`, with the user's home directory passed explicitly.
A path not starting with `~` is unchanged; bare `~` and `~/...` expand to the
home directory; `~user` forms are modelled as an unknown user (unchanged). -/
def expanduser (home p : String) : String :=
  if p = "~" then home
  else if strStarts p "~/" then home ++ ⟨p.data.drop 1⟩
  else p

/-- Index of the last occurrence of `c` in `l`, if any. -/
def lastIdx (c : Char) (l : List Char) : Option Nat :=
  match l.reverse.findIdx? (· = c) with
  | none => none
  | some i => some (l.length - 1 - i)

/-- `os.path.basename`: everything after the last slash. -/
def basename (p : String) : String :=
  match lastIdx '/' p.data with
  | none => p
  | some i => ⟨p.data.drop (i + 1)⟩

/-- `os.path.splitext`, following CPython's `genericpath._splitext`:
split at the last dot that lies after the last slash, unless every character
between the last slash and that dot is itself a dot (so a leading-dot name
such as `.bashrc` has no extension). -/
def splitext (p : String) : String × String :=
  let l := p.data
  let sep : Int := match lastIdx '/' l with | none => -1 | some i => (i : Int)
  let dot : Int := match lastIdx '.' l with | none => -1 | some i => (i : Int)
  if sep < dot then
    let fi := (sep + 1).toNat
    let di := dot.toNat
    if ((l.drop fi).take (di - fi)).any (fun ch => ch ≠ '.') then
      (⟨l.take di⟩, ⟨l.drop di⟩)
    else (p, "")
  else (p, "")

/-- A local-clock reading, the fields `datetime.now()` exposes to
`%Y%m%d%H%M%S`. -/
structure DT where
  year : Nat
  month : Nat
  day : Nat
  hour : Nat
  minute : Nat
  second : Nat
deriving DecidableEq, Repr

/-- A clock reading an actual local clock can produce (and on which the
padded formatter below agrees with C `strftime`). -/
def ValidTime (dt : DT) : Prop :=
  1000 ≤ dt.year ∧ dt.year ≤ 9999 ∧ 1 ≤ dt.month ∧ dt.month ≤ 12 ∧
  1 ≤ dt.day ∧ dt.day ≤ 31 ∧ dt.hour ≤ 23 ∧ dt.minute ≤ 59 ∧ dt.second ≤ 59

instance (dt : DT) : Decidable (ValidTime dt) := by
  unfold ValidTime; infer_instance

/-- Two-digit zero-padded decimal (`%m`, `%d`, `%H`, `%M`, `%S`). -/
def pad2 (n : Nat) : String :=
  ⟨[Nat.digitChar (n / 10 % 10), Nat.digitChar (n % 10)]⟩

/-- Four-digit zero-padded decimal (`%Y` for years 1000–9999). -/
def pad4 (n : Nat) : String :=
  ⟨[Nat.digitChar (n / 1000 % 10), Nat.digitChar (n / 100 % 10),
    Nat.digitChar (n / 10 % 10), Nat.digitChar (n % 10)]⟩

/-- `datetime.strftime('%Y%m%d%H%M%S')` on a clock reading. -/
def strftime (dt : DT) : String :=
  pad4 dt.year ++ pad2 dt.month ++ pad2 dt.day ++
    pad2 dt.hour ++ pad2 dt.minute ++ pad2 dt.second

/-- The filesystem: paths of regular files and paths of directories. -/
structure FS where
  files : List String
  dirs : List String
deriving DecidableEq, Repr

/-- `os.path.isfile`. -/
def isfile (fs : FS) (p : String) : Bool := decide (p ∈ fs.files)

/-- `os.path.exists`: true for files and for directories. -/
def pathExists (fs : FS) (p : String) : Bool :=
  decide (p ∈ fs.files) || decide (p ∈ fs.dirs)

/-- The ambient environment of one run: the home directory, the local clock,
and fault oracles for the two fallible filesystem calls.  `mkdirErr p = some m`
means `os.makedirs(p)` raises an exception whose message is `m`;
`moveErr src dst = some m` means `shutil.move(src, dst)` raises `m`. -/
structure Env where
  home : String
  now : DT
  mkdirErr : String → Option String
  moveErr : String → String → Option String

/-- `os.makedirs(p, exist_ok=True)`: raises per the oracle, otherwise records
the directory (the chain of missing parents is represented by its leaf). -/
def makedirs (env : Env) (p : String) (fs : FS) : Except String FS :=
  match env.mkdirErr p with
  | some m => Except.error m
  | none => Except.ok { fs with dirs := if p ∈ fs.dirs then fs.dirs else p :: fs.dirs }

/-- `shutil.move(src, dst)` in the success case: the file leaves its source
path and appears at the destination path. -/
def moveFile (src dst : String) (fs : FS) : FS :=
  { fs with files := dst :: fs.files.erase src }

/-- The single-quote character the Python f-strings wrap around names. -/
def sq : String := ⟨[Char.ofNat 39]⟩

/-- Console-echo rule of `organize_file` and `initial_scan`:
`if verbose or dry_run: print(f"{'[DRY RUN] ' if dry_run else ''}{msg}")`. -/
def consoleOf (verbose dry_run : Bool) (msg : String) : List String :=
  if verbose || dry_run then [(if dry_run then "[DRY RUN] " else "") ++ msg] else []

/-- `get_destination_folder(file_extension, destinations)` (lines 22–27):
walk the destination mapping in iteration order and return the first folder
whose extension list contains the lowercased input extension. -/
def get_destination_folder (file_extension : String)
    (destinations : List (String × List String)) : Option String :=
  match destinations with
  | [] => none
  | (folder, extensions) :: rest =>
    if pyLower file_extension ∈ extensions then some folder
    else get_destination_folder file_extension rest

/-- Modelled from the spec's words (§3): the five-valued outcome
`{Moved, Renamed-and-moved, Skipped-no-match, Skipped-not-a-file, Failed}`.
No such enumeration exists in `organizer.py`; the spec presents it as the
abstract outcome of one `organize` call. -/
inductive MoveOutcome where
  | moved
  | renamedAndMoved
  | skippedNoMatch
  | skippedNotAFile
  | failed
deriving DecidableEq, Repr

/-- Everything one `organize_file` call produces besides exceptions: the new
filesystem, the log-file lines, the stdout lines, the stderr lines, and the
Python return value.  `organize_file` has a bare `return` (line 32) and
otherwise falls off its end, so the returned Python value is `None` on every
path; `retVal` records it, typed against the spec's `MoveOutcome`. -/
structure OrganizeResult where
  fs : FS
  log : List String
  out : List String
  err : List String
  retVal : Option MoveOutcome
deriving DecidableEq, Repr

/-- Lines 38–41 of `organize_file`: the destination directory for a matched
folder name — the name itself if absolute, otherwise joined under the source
folder, and `os.path.expanduser` applied to the result. -/
def resolve_dest_folder (home source_folder dest_folder_name : String) : String :=
  let dest_folder_path :=
    if isabs dest_folder_name then dest_folder_name
    else pathJoin source_folder dest_folder_name
  expanduser home dest_folder_path

/-- `organize_file(file_path, source_folder, destinations, verbose, dry_run)`
(lines 29–76), translated statement by statement.  `if dest_folder_name:` is
Python truthiness: it is false both for `None` and for an empty folder name. -/
def organize_file (env : Env) (file_path source_folder : String)
    (destinations : List (String × List String)) (verbose dry_run : Bool)
    (fs : FS) : Except String OrganizeResult :=
  if isfile fs file_path = false then
    Except.ok ⟨fs, [], [], [], none⟩
  else
    let file_extension := (splitext file_path).2
    match get_destination_folder file_extension destinations with
    | none => Except.ok ⟨fs, [], [], [], none⟩
    | some dest_folder_name =>
      if dest_folder_name = "" then Except.ok ⟨fs, [], [], [], none⟩
      else
        let dest_folder_path := resolve_dest_folder env.home source_folder dest_folder_name
        (if dry_run then Except.ok fs else makedirs env dest_folder_path fs).bind fun fs1 =>
        let file_name := basename file_path
        let dest_file_path := pathJoin dest_folder_path file_name
        -- lines 49–63: pick the final destination path and the log line
        let step :=
          if pathExists fs1 dest_file_path then
            let timestamp := strftime env.now
            let be := splitext file_name
            let new_file_name := be.1 ++ "_" ++ timestamp ++ be.2
            let new_dest_file_path := pathJoin dest_folder_path new_file_name
            (new_dest_file_path,
             "Duplicate file: " ++ sq ++ file_name ++ sq ++ ". Renaming to " ++
               sq ++ new_file_name ++ sq ++ ". Moving to " ++ sq ++ dest_folder_path ++ sq ++ ".")
          else
            (dest_file_path,
             "Moving " ++ sq ++ file_name ++ sq ++ " to " ++ sq ++ dest_folder_path ++ sq ++ ".")
        let log1 := [step.2]
        let out1 := consoleOf verbose dry_run step.2
        -- lines 65–76: the guarded move
        if dry_run then Except.ok ⟨fs1, log1, out1, [], none⟩
        else
          match env.moveErr file_path step.1 with
          | none =>
            let success_message :=
              "Successfully moved " ++ sq ++ file_name ++ sq ++ " to " ++
                sq ++ dest_folder_path ++ sq ++ "."
            Except.ok ⟨moveFile file_path step.1 fs1, log1 ++ [success_message],
              out1 ++ (if verbose then [success_message] else []), [], none⟩
          | some e =>
            let error_message :=
              "Error moving " ++ sq ++ file_name ++ sq ++ " to " ++
                sq ++ dest_folder_path ++ sq ++ ": " ++ e
            Except.ok ⟨fs1, log1 ++ [error_message], out1,
              if verbose then [error_message] else [], none⟩

/-- The branch one `organize_file` call takes, expressed in the spec's
`MoveOutcome` vocabulary; `none` when the call raises (an uncaught
`os.makedirs` failure), so that no branch completes. -/
def outcomeOf (env : Env) (file_path source_folder : String)
    (destinations : List (String × List String)) (dry_run : Bool)
    (fs : FS) : Option MoveOutcome :=
  if isfile fs file_path = false then
    some MoveOutcome.skippedNotAFile
  else
    match get_destination_folder (splitext file_path).2 destinations with
    | none => some MoveOutcome.skippedNoMatch
    | some dest_folder_name =>
      if dest_folder_name = "" then some MoveOutcome.skippedNoMatch
      else
        let dest_folder_path := resolve_dest_folder env.home source_folder dest_folder_name
        match (if dry_run then none else env.mkdirErr dest_folder_path) with
        | some _ => none
        | none =>
          let fs1 := if dry_run then fs
            else { fs with dirs := if dest_folder_path ∈ fs.dirs then fs.dirs
                                   else dest_folder_path :: fs.dirs }
          let dest_file_path := pathJoin dest_folder_path (basename file_path)
          if pathExists fs1 dest_file_path then
            let be := splitext (basename file_path)
            let new_dest := pathJoin dest_folder_path (be.1 ++ "_" ++ strftime env.now ++ be.2)
            match (if dry_run then none else env.moveErr file_path new_dest) with
            | some _ => some MoveOutcome.failed
            | none => some MoveOutcome.renamedAndMoved
          else
            match (if dry_run then none else env.moveErr file_path dest_file_path) with
            | some _ => some MoveOutcome.failed
            | none => some MoveOutcome.moved

/-- Accumulated effects of a scan or of program startup. -/
structure Effects where
  fs : FS
  log : List String
  out : List String
  err : List String
deriving DecidableEq, Repr

/-- The `for item in os.listdir(source_folder)` loop of `initial_scan`
(lines 94–96).  An exception escaping `organize_file` aborts the loop. -/
def scanLoop (env : Env) (source_folder : String)
    (destinations : List (String × List String)) (verbose dry_run : Bool) :
    List String → Effects → Except String Effects
  | [], acc => Except.ok acc
  | item :: rest, acc =>
    let item_path := pathJoin source_folder item
    (organize_file env item_path source_folder destinations verbose dry_run acc.fs).bind
      fun r =>
        scanLoop env source_folder destinations verbose dry_run rest
          ⟨r.fs, acc.log ++ r.log, acc.out ++ r.out, acc.err ++ r.err⟩

/-- `initial_scan(source_folder, destinations, verbose, dry_run)`
(lines 89–99).  The `os.listdir` result is platform-ordered, so the listing
is supplied as the argument `items`. -/
def initial_scan (env : Env) (source_folder : String)
    (destinations : List (String × List String)) (verbose dry_run : Bool)
    (items : List String) (fs : FS) : Except String Effects :=
  let startMsg := "Performing initial scan..."
  let endMsg := "Initial scan complete."
  (scanLoop env source_folder destinations verbose dry_run items
      ⟨fs, [startMsg], consoleOf verbose dry_run startMsg, []⟩).map
    fun e => ⟨e.fs, e.log ++ [endMsg], e.out ++ consoleOf verbose dry_run endMsg, e.err⟩

/-- Lines 114–123 of `main`: expand the configured source folder and, when it
does not exist, create it and log the creation — before any scan or watch,
and regardless of the dry-run flag.  (Line 120's `os.makedirs` has no
`exist_ok`, but it only runs under the `not os.path.exists` guard.) -/
def main_startup (env : Env) (cfg_source : String) (verbose dry_run : Bool)
    (fs : FS) : Except String Effects :=
  let source_folder := expanduser env.home cfg_source
  if pathExists fs source_folder = false then
    (makedirs env source_folder fs).map fun fs1 =>
      let msg := "Created source folder: " ++ source_folder
      ⟨fs1, [msg], if verbose || dry_run then [msg] else [], []⟩
  else Except.ok ⟨fs, [], [], []⟩

/-- Modelled from the spec's words (§4.1): the first folder, in iteration
order, whose extension set contains the input extension under
case-insensitive comparison; `none` when no set contains it. -/
def classifySpec (e : String) (destinations : List (String × List String)) :
    Option String :=
  (destinations.find? fun p => decide (∃ x ∈ p.2, pyLower x = pyLower e)).map
    Prod.fst

/-- The DestinationMap invariant of the spec's data model (§3): the stored
extension strings are lowercase (and, carrying their leading separator,
nonempty). -/
def ValidDestinations (destinations : List (String × List String)) : Prop :=
  ∀ p ∈ destinations, ∀ e ∈ p.2, e ≠ "" ∧ pyLower e = e

instance (destinations : List (String × List String)) :
    Decidable (ValidDestinations destinations) := by
  unfold ValidDestinations; infer_instance

/-! ## Sample inputs used by concrete witnesses and counterexamples -/

/-- A destination mapping as a configuration would provide it. -/
def sampleDests : List (String × List String) :=
  [("docs", [".pdf"]), ("images", [".jpg", ".png"])]

/-- A fault-free run environment. -/
def sampleEnv : Env :=
  ⟨"/home/u", ⟨2026, 10, 12, 3, 4, 5⟩, fun _ => none, fun _ _ => none⟩

/-- A source folder holding one matching and one non-matching file. -/
def sampleFS : FS := ⟨["src/a.pdf", "src/b.txt"], ["src"]⟩

/-- An environment in which creating `src/docs` raises `PermissionError`. -/
def envMkdirFail : Env :=
  ⟨"/home/u", ⟨2026, 10, 12, 3, 4, 5⟩,
   fun p => if p = "src/docs" then some "PermissionError" else none,
   fun _ _ => none⟩

/-- An environment in which every `shutil.move` raises `Disk full`. -/
def envMoveFail : Env :=
  ⟨"/home/u", ⟨2026, 10, 12, 3, 4, 5⟩, fun _ => none, fun _ _ => some "Disk full"⟩

/-- A source folder with two matching files awaiting the scan. -/
def fsTwoPdfs : FS := ⟨["src/a.pdf", "src/b.pdf"], ["src"]⟩

/-- A destination already containing `report.pdf` while another `report.pdf`
waits in the source folder. -/
def fsCollision : FS :=
  ⟨["src/report.pdf", "src/docs/report.pdf"], ["src", "src/docs"]⟩

/-! ## Theorems -/

/-- C3: with the dry-run flag set, `organize_file` returns normally on every
input and leaves the filesystem state exactly as it found it: no destination
directory is created and no file is moved or renamed. -/
theorem organize_file_dry_run_no_fs_change (env : Env) (fp src : String)
    (dests : List (String × List String)) (vb : Bool) (fs : FS) :
    ∃ r, organize_file env fp src dests vb true fs = Except.ok r ∧ r.fs = fs := by
  simp only [organize_file]
  repeat' split
  all_goals first
  | exact ⟨_, rfl, rfl⟩
  | simp_all

/-- C9: a call on a regular file whose extension matches no destination set
is a silent skip: the filesystem is unchanged and no log, stdout, or stderr
line is produced. -/
theorem organize_file_no_match_silent (env : Env) (fp src : String)
    (dests : List (String × List String)) (vb dr : Bool) (fs : FS)
    (hf : isfile fs fp = true)
    (hm : get_destination_folder (splitext fp).2 dests = none) :
    organize_file env fp src dests vb dr fs = Except.ok ⟨fs, [], [], [], none⟩ := by
  unfold organize_file
  rw [hf]
  simp [hm]

/-- C9 witness: a creation event for `src/b.txt` (no destination maps
`.txt`) changes nothing and logs nothing. -/
theorem organize_file_no_match_silent_witness :
    organize_file sampleEnv "src/b.txt" "src" sampleDests false false sampleFS =
      Except.ok ⟨sampleFS, [], [], [], none⟩ :=
  organize_file_no_match_silent sampleEnv "src/b.txt" "src" sampleDests false false
    sampleFS (by decide) (by decide)

/-- C8: the destination directory resolved by `organize_file` for a matched
folder name is the name itself (home-expanded) when the name is absolute —
the source folder is not joined — and the name joined under the source
folder (home-expanded) when it is relative. -/
theorem resolve_dest_folder_abs_rel (home src name : String) :
    (isabs name = true → resolve_dest_folder home src name = expanduser home name) ∧
    (isabs name = false →
      resolve_dest_folder home src name = expanduser home (pathJoin src name)) := by
  constructor <;> intro h <;> simp [resolve_dest_folder, h]

/-- C8 witness: `/abs/media` is honored as-is; `docs` is joined under the
source folder. -/
theorem resolve_dest_folder_abs_rel_witness :
    resolve_dest_folder "/home/u" "src" "/abs/media" = expanduser "/home/u" "/abs/media" ∧
    resolve_dest_folder "/home/u" "src" "docs" = expanduser "/home/u" (pathJoin "src" "docs") :=
  ⟨(resolve_dest_folder_abs_rel "/home/u" "src" "/abs/media").1 (by decide),
   (resolve_dest_folder_abs_rel "/home/u" "src" "docs").2 (by decide)⟩

/-- C7: on a destination map satisfying the spec's DestinationMap invariant,
classifying an empty (or missing) extension yields no match; the classifier
is a total pure function, so the call has no side effects and no error
cases. -/
theorem classify_empty_extension_no_match (dests : List (String × List String))
    (hv : ValidDestinations dests) :
    get_destination_folder "" dests = none := by
  induction dests with
  | nil => rfl
  | cons p rest ih =>
    obtain ⟨f, exts⟩ := p
    unfold get_destination_folder
    split
    · rename_i hmem
      exact absurd rfl (hv (f, exts) (List.mem_cons_self _ _) _ hmem).1
    · exact ih fun q hq => hv q (List.mem_cons_of_mem _ hq)

/-- C7 witness: the empty extension finds no match in the sample map. -/
theorem classify_empty_extension_no_match_witness :
    get_destination_folder "" sampleDests = none :=
  classify_empty_extension_no_match sampleDests (by decide)

/-- C10: at startup (after loading the configuration, before any scan or
watch), a missing source folder is created and the creation is logged — even
when the dry-run flag is set, so a dry run still changes filesystem state. -/
theorem main_startup_creates_missing_source (env : Env) (cfg : String)
    (vb : Bool) (fs : FS)
    (h1 : pathExists fs (expanduser env.home cfg) = false)
    (h2 : env.mkdirErr (expanduser env.home cfg) = none) :
    ∃ e, main_startup env cfg vb true fs = Except.ok e ∧
      expanduser env.home cfg ∈ e.fs.dirs ∧
      e.fs ≠ fs ∧
      ("Created source folder: " ++ expanduser env.home cfg) ∈ e.log ∧
      ("Created source folder: " ++ expanduser env.home cfg) ∈ e.out := by
  have hd : expanduser env.home cfg ∉ fs.dirs := by
    intro hmem
    simp [pathExists, hmem] at h1
  have hmain : main_startup env cfg vb true fs =
      Except.ok ⟨{ fs with dirs := expanduser env.home cfg :: fs.dirs },
        ["Created source folder: " ++ expanduser env.home cfg],
        ["Created source folder: " ++ expanduser env.home cfg], []⟩ := by
    unfold main_startup makedirs
    simp [h1, h2, hd]
    rfl
  refine ⟨_, hmain, ?_, ?_, ?_, ?_⟩
  · exact List.mem_cons_self _ _
  · intro he
    have h3 := congrArg FS.dirs he
    simp only at h3
    exact absurd h3 (List.cons_ne_self _ _)
  · simp
  · simp

/-- C10 witness: with `~/watch` configured and absent, a dry run still
creates `/home/u/watch` and logs the creation. -/
theorem main_startup_creates_missing_source_witness :
    ∃ e, main_startup sampleEnv "~/watch" false true ⟨[], []⟩ = Except.ok e ∧
      expanduser sampleEnv.home "~/watch" ∈ e.fs.dirs ∧
      e.fs ≠ (⟨[], []⟩ : FS) ∧
      ("Created source folder: " ++ expanduser sampleEnv.home "~/watch") ∈ e.log ∧
      ("Created source folder: " ++ expanduser sampleEnv.home "~/watch") ∈ e.out :=
  main_startup_creates_missing_source sampleEnv "~/watch" false ⟨[], []⟩
    (by decide) (by decide)

/-- C4: on a destination map satisfying the spec's DestinationMap invariant
(stored extensions lowercase), an extension that occurs — up to letter
case — in exactly one destination's extension set classifies to that
destination, whatever the case of the input. -/
theorem classify_unique_match_case_insensitive
    (dests : List (String × List String)) (e f : String) (exts : List String)
    (hv : ValidDestinations dests)
    (hmem : (f, exts) ∈ dests)
    (hin : ∃ x ∈ exts, pyLower x = pyLower e)
    (huniq : ∀ p ∈ dests, (∃ x ∈ p.2, pyLower x = pyLower e) → p.1 = f) :
    get_destination_folder e dests = some f := by
  induction dests with
  | nil => cases hmem
  | cons q rest ih =>
    obtain ⟨g, gx⟩ := q
    unfold get_destination_folder
    by_cases hg : pyLower e ∈ gx
    · rw [if_pos hg]
      have : g = f := by
        refine huniq (g, gx) (List.mem_cons_self _ _) ⟨pyLower e, hg, ?_⟩
        exact (hv (g, gx) (List.mem_cons_self _ _) _ hg).2
      rw [this]
    · rw [if_neg hg]
      rcases List.mem_cons.mp hmem with hq | hq
      · exfalso
        obtain ⟨x, hx, hxl⟩ := hin
        have hlow : pyLower x = x := by
          have := hv (f, exts) hmem _ hx
          exact this.2
        rw [hlow] at hxl
        subst hxl
        have : exts = gx := (Prod.mk.injEq _ _ _ _ ▸ hq.symm).2 ▸ rfl
        exact hg (by
          have hpair := hq
          cases hpair
          exact hx)
      · exact ih (fun p hp => hv p (List.mem_cons_of_mem _ hp)) hq
          (fun p hp h => huniq p (List.mem_cons_of_mem _ hp) h)

/-- C4 witness: `.PDF` occurs (up to case) only in the `docs` set of the
sample map and classifies to `docs`. -/
theorem classify_unique_match_case_insensitive_witness :
    get_destination_folder ".PDF" sampleDests = some "docs" :=
  classify_unique_match_case_insensitive sampleDests ".PDF" "docs" [".pdf"]
    (by decide) (by decide) (by decide) (by decide)

/-- C5: on a destination map satisfying the spec's DestinationMap invariant,
the classifier returns the first folder, in iteration order, whose extension
set contains the input extension under case-insensitive comparison, and
`none` when no set contains it (`classifySpec` is the spec's wording). -/
theorem classify_eq_first_case_insensitive_match (e : String)
    (dests : List (String × List String)) (hv : ValidDestinations dests) :
    get_destination_folder e dests = classifySpec e dests := by
  induction dests with
  | nil => rfl
  | cons q rest ih =>
    obtain ⟨g, gx⟩ := q
    unfold get_destination_folder classifySpec
    by_cases hg : pyLower e ∈ gx
    · rw [if_pos hg]
      have hpred : decide (∃ x ∈ gx, pyLower x = pyLower e) = true := by
        refine decide_eq_true ⟨pyLower e, hg, ?_⟩
        exact (hv (g, gx) (List.mem_cons_self _ _) _ hg).2
      simp [List.find?, hpred]
    · rw [if_neg hg]
      have hpred : decide (∃ x ∈ gx, pyLower x = pyLower e) = false := by
        refine decide_eq_false ?_
        rintro ⟨x, hx, hxl⟩
        have hlow := (hv (g, gx) (List.mem_cons_self _ _) _ hx).2
        rw [hlow] at hxl
        exact hg (hxl ▸ hx)
      have := ih fun p hp => hv p (List.mem_cons_of_mem _ hp)
      simp [List.find?, hpred, this, classifySpec]

/-- C5 witness: `.JPG` is classified to the first (and only) folder whose
set contains it case-insensitively, matching the spec-worded classifier. -/
theorem classify_eq_first_case_insensitive_match_witness :
    get_destination_folder ".JPG" sampleDests = classifySpec ".JPG" sampleDests :=
  classify_eq_first_case_insensitive_match ".JPG" sampleDests (by decide)

/-- C1 counterexample: directory creation (`os.makedirs`, line 44) is not
inside the `try` block, so its failure propagates out of `organize_file`;
the same exception then aborts the scan loop before `b.pdf` is reached. -/
theorem organize_file_mkdir_failure_raises_cex :
    organize_file envMkdirFail "src/a.pdf" "src" [("docs", [".pdf"])] false false
      fsTwoPdfs = Except.error "PermissionError" ∧
    initial_scan envMkdirFail "src" [("docs", [".pdf"])] false false
      ["a.pdf", "b.pdf"] fsTwoPdfs = Except.error "PermissionError" :=
  ⟨rfl, rfl⟩

/-- C1 amended: a failure of the file relocation itself (`shutil.move`) is
caught inside the call — whenever directory creation does not raise, the
call returns normally, whatever the move oracle does — and the failure is
logged: when a non-dry-run call reaches a failing move, the file stays in
place, the `Error moving ...` line is written to the log, and it is echoed
to stderr exactly when `verbose` is set.  A directory-creation failure, by
contrast, is not caught and propagates to the caller. -/
theorem organize_file_move_failure_caught_logged (env : Env) (fp src : String)
    (dests : List (String × List String)) (vb dr : Bool) (fs : FS)
    (h : ∀ p, env.mkdirErr p = none) :
    (∃ r, organize_file env fp src dests vb dr fs = Except.ok r) ∧
    (∀ dfn m, dr = false →
      isfile fs fp = true →
      get_destination_folder (splitext fp).2 dests = some dfn →
      dfn ≠ "" →
      (∀ d, env.moveErr fp d = some m) →
      ∃ r, organize_file env fp src dests vb dr fs = Except.ok r ∧
        r.fs.files = fs.files ∧
        ("Error moving " ++ sq ++ basename fp ++ sq ++ " to " ++ sq ++
          resolve_dest_folder env.home src dfn ++ sq ++ ": " ++ m) ∈ r.log ∧
        r.err = (if vb then
          ["Error moving " ++ sq ++ basename fp ++ sq ++ " to " ++ sq ++
            resolve_dest_folder env.home src dfn ++ sq ++ ": " ++ m]
          else [])) := by
  constructor
  · simp only [organize_file, makedirs, h]
    repeat' split
    all_goals try simp only [Except.bind]
    all_goals repeat' split
    all_goals exact ⟨_, rfl⟩
  · intro dfn m hdr hf hm hd hmv
    subst hdr
    simp only [organize_file, makedirs, h, hf, hm, if_neg hd, Bool.true_eq_false,
      Bool.false_eq_true, reduceIte, Except.bind, hmv]
    split
    all_goals exact ⟨_, rfl, rfl, by simp, rfl⟩

/-- C1 witness: with directory creation succeeding and every `shutil.move`
raising `Disk full`, the verbose call returns normally, leaves `src/a.pdf`
in place, logs the error line, and echoes it to stderr. -/
theorem organize_file_move_failure_caught_logged_witness :
    ∃ r, organize_file envMoveFail "src/a.pdf" "src" sampleDests true false
        sampleFS = Except.ok r ∧
      r.fs.files = sampleFS.files ∧
      ("Error moving " ++ sq ++ basename "src/a.pdf" ++ sq ++ " to " ++ sq ++
        resolve_dest_folder envMoveFail.home "src" "docs" ++ sq ++ ": " ++
        "Disk full") ∈ r.log ∧
      r.err = (if true then
        ["Error moving " ++ sq ++ basename "src/a.pdf" ++ sq ++ " to " ++ sq ++
          resolve_dest_folder envMoveFail.home "src" "docs" ++ sq ++ ": " ++
          "Disk full"]
        else []) :=
  (organize_file_move_failure_caught_logged envMoveFail "src/a.pdf" "src"
      sampleDests true false sampleFS (fun _ => rfl)).2
    "docs" "Disk full" rfl (by decide) (by decide) (by decide) (fun _ => rfl)

/-- Each digit cell of the zero-padded formatters is a decimal digit. -/
theorem digitChar_mod10_isDigit (n : Nat) :
    (Nat.digitChar (n % 10)).isDigit = true := by
  have h : n % 10 < 10 := Nat.mod_lt _ (by norm_num)
  generalize hm : n % 10 = m at h
  interval_cases m <;> decide

/-- The `%Y%m%d%H%M%S` formatter always yields 14 characters. -/
theorem strftime_length (dt : DT) : (strftime dt).length = 14 := rfl

/-- Character list of a string concatenation. -/
theorem strAppend_data (a b : String) : (a ++ b).data = a.data ++ b.data := by
  cases a; cases b; rfl

/-- Every character of `pad2` is a decimal digit. -/
theorem pad2_digits (n : Nat) : ∀ c ∈ (pad2 n).data, c.isDigit = true := by
  intro c hc
  simp only [pad2, List.mem_cons, List.not_mem_nil, or_false] at hc
  rcases hc with rfl | rfl <;> exact digitChar_mod10_isDigit _

/-- Every character of `pad4` is a decimal digit. -/
theorem pad4_digits (n : Nat) : ∀ c ∈ (pad4 n).data, c.isDigit = true := by
  intro c hc
  simp only [pad4, List.mem_cons, List.not_mem_nil, or_false] at hc
  rcases hc with rfl | rfl | rfl | rfl <;> exact digitChar_mod10_isDigit _

/-- The `%Y%m%d%H%M%S` formatter yields decimal digits only. -/
theorem strftime_digits (dt : DT) : ∀ c ∈ (strftime dt).data, c.isDigit = true := by
  intro c hc
  simp only [strftime, strAppend_data, List.mem_append] at hc
  rcases hc with ((((h | h) | h) | h) | h) | h
  · exact pad4_digits _ _ h
  · exact pad2_digits _ _ h
  · exact pad2_digits _ _ h
  · exact pad2_digits _ _ h
  · exact pad2_digits _ _ h
  · exact pad2_digits _ _ h

/-- C6: when the candidate destination path already exists, `organize_file`
moves the file to a name formed by inserting `_` plus the 14-digit local
timestamp between the base name (split at the last dot) and the extension,
and the pre-existing file at the candidate path is left untouched. -/
theorem organize_file_collision_appends_timestamp
    (env : Env) (fp src dfn : String) (dests : List (String × List String))
    (vb : Bool) (fs : FS)
    (hf : isfile fs fp = true)
    (hm : get_destination_folder (splitext fp).2 dests = some dfn)
    (hdfn : dfn ≠ "")
    (hmk : env.mkdirErr (resolve_dest_folder env.home src dfn) = none)
    (hex : pathJoin (resolve_dest_folder env.home src dfn) (basename fp) ∈ fs.files)
    (hne : pathJoin (resolve_dest_folder env.home src dfn) (basename fp) ≠ fp)
    (hmv : ∀ d, env.moveErr fp d = none)
    (ht : ValidTime env.now) :
    ∃ r, organize_file env fp src dests vb false fs = Except.ok r ∧
      (strftime env.now).length = 14 ∧
      (∀ c ∈ (strftime env.now).data, c.isDigit = true) ∧
      r.fs.files =
        pathJoin (resolve_dest_folder env.home src dfn)
          ((splitext (basename fp)).1 ++ "_" ++ strftime env.now ++
            (splitext (basename fp)).2) :: fs.files.erase fp ∧
      pathJoin (resolve_dest_folder env.home src dfn) (basename fp) ∈ r.fs.files := by
  have hex1 : ∀ ds, pathExists ⟨fs.files, ds⟩
      (pathJoin (resolve_dest_folder env.home src dfn) (basename fp)) = true := by
    intro ds
    simp [pathExists, hex]
  simp only [organize_file, makedirs, hmk, hf, hm, hdfn, Except.bind]
  simp only [Bool.true_eq_false, if_false, ite_false, if_neg hdfn,
    Bool.false_eq_true, reduceIte]
  simp only [hex1, hmv, if_true, reduceIte]
  refine ⟨_, rfl, rfl, strftime_digits env.now, ?_, ?_⟩
  · simp [moveFile]
  · simp only [moveFile]
    exact List.mem_cons_of_mem _ ((List.mem_erase_of_ne hne).mpr hex)

/-- C6 witness: moving a second `report.pdf` into a destination already
holding `report.pdf` produces `report_<14-digit-timestamp>.pdf` and leaves
the pre-existing `src/docs/report.pdf` in place. -/
theorem organize_file_collision_appends_timestamp_witness :
    ∃ r, organize_file sampleEnv "src/report.pdf" "src" sampleDests false false
        fsCollision = Except.ok r ∧
      (strftime sampleEnv.now).length = 14 ∧
      (∀ c ∈ (strftime sampleEnv.now).data, c.isDigit = true) ∧
      r.fs.files =
        pathJoin (resolve_dest_folder sampleEnv.home "src" "docs")
          ((splitext (basename "src/report.pdf")).1 ++ "_" ++
            strftime sampleEnv.now ++ (splitext (basename "src/report.pdf")).2) ::
          fsCollision.files.erase "src/report.pdf" ∧
      pathJoin (resolve_dest_folder sampleEnv.home "src" "docs")
        (basename "src/report.pdf") ∈ r.fs.files :=
  organize_file_collision_appends_timestamp sampleEnv "src/report.pdf" "src" "docs"
    sampleDests false fsCollision (by decide) (by decide) (by decide) rfl
    (by decide) (by decide) (fun _ => rfl) (by decide)

/-- C2 counterexample: `organize_file` never returns an outcome value — its
Python return value is `None` on every path.  Here a file is actually moved
(the filesystem changes), yet the returned value is `None`, not `Moved` or
any other `MoveOutcome`. -/
theorem organize_file_returns_none_cex :
    (organize_file sampleEnv "src/a.pdf" "src" sampleDests false false
        sampleFS).map OrganizeResult.retVal = Except.ok (none : Option MoveOutcome) ∧
    (organize_file sampleEnv "src/a.pdf" "src" sampleDests false false
        sampleFS).map (fun r => r.fs.files) =
      Except.ok ["src/docs/a.pdf", "src/b.txt"] :=
  ⟨rfl, rfl⟩

set_option maxHeartbeats 1600000 in
/-- C2 amended: the Python return value is always `None`, but each call that
returns normally falls into exactly one of the five spec cases, computed by
`outcomeOf`, and the call's observable effects match that case: the skips
change nothing, a failure leaves the file in place, and a (renamed) move
replaces the source path by one new destination path. -/
theorem organize_file_five_cases (env : Env) (fp src : String)
    (dests : List (String × List String)) (vb dr : Bool) (fs : FS) :
    (outcomeOf env fp src dests dr fs = none →
      ∃ m, organize_file env fp src dests vb dr fs = Except.error m) ∧
    (∀ o, outcomeOf env fp src dests dr fs = some o →
      ∃ r, organize_file env fp src dests vb dr fs = Except.ok r ∧
        r.retVal = none) ∧
    (outcomeOf env fp src dests dr fs = some MoveOutcome.skippedNotAFile ↔
      isfile fs fp = false) ∧
    (outcomeOf env fp src dests dr fs = some MoveOutcome.skippedNotAFile →
      organize_file env fp src dests vb dr fs = Except.ok ⟨fs, [], [], [], none⟩) ∧
    (outcomeOf env fp src dests dr fs = some MoveOutcome.skippedNoMatch →
      isfile fs fp = true ∧
      organize_file env fp src dests vb dr fs = Except.ok ⟨fs, [], [], [], none⟩) ∧
    (∀ r, outcomeOf env fp src dests dr fs = some MoveOutcome.failed →
      organize_file env fp src dests vb dr fs = Except.ok r →
      dr = false ∧ r.fs.files = fs.files ∧ fp ∈ r.fs.files) ∧
    (∀ r, (outcomeOf env fp src dests dr fs = some MoveOutcome.moved ∨
        outcomeOf env fp src dests dr fs = some MoveOutcome.renamedAndMoved) →
      organize_file env fp src dests vb dr fs = Except.ok r →
      (dr = true → r.fs = fs) ∧
      (dr = false → ∃ dst, r.fs.files = dst :: fs.files.erase fp)) := by
  by_cases hf : isfile fs fp = false
  · simp [organize_file, outcomeOf, hf]
  · have hf' : isfile fs fp = true := by
      revert hf; cases isfile fs fp <;> simp
    have hfm : fp ∈ fs.files := of_decide_eq_true hf'
    rcases hm : get_destination_folder (splitext fp).2 dests with _ | dfn
    · simp [organize_file, outcomeOf, hf', hm]
    · by_cases hd : dfn = ""
      · subst hd
        simp [organize_file, outcomeOf, hf', hm]
      · cases dr with
        | true =>
          simp only [organize_file, outcomeOf, hf', hm, hd, Bool.true_eq_false,
            Bool.false_eq_true, reduceIte, if_neg hd, Except.bind]
          repeat' split
          all_goals simp_all [Except.ok.injEq]
        | false =>
          rcases hmk : env.mkdirErr (resolve_dest_folder env.home src dfn) with _ | m
          · simp only [organize_file, outcomeOf, makedirs, hf', hm, hd, hmk,
              Bool.true_eq_false, Bool.false_eq_true, reduceIte, if_neg hd,
              Except.bind]
            repeat' split
            all_goals simp_all [moveFile, Except.ok.injEq]
          · simp [organize_file, outcomeOf, makedirs, hf', hm, hd, hmk,
              Bool.true_eq_false, Bool.false_eq_true, Except.bind]

/-- C2 witness: classifying a concrete no-match call and reading off the
normal return with a `None` return value. -/
theorem organize_file_five_cases_witness :
    ∃ r, organize_file sampleEnv "src/b.txt" "src" sampleDests false false
      sampleFS = Except.ok r ∧ r.retVal = none :=
  (organize_file_five_cases sampleEnv "src/b.txt" "src" sampleDests false false
    sampleFS).2.1 MoveOutcome.skippedNoMatch (by decide)

end Organizer
